import Mathlib

/-!
Shallow embedding of the rusted-cypher Neo4j driver core
(statement/parameter model, request envelope, response decoding,
query batch and typestate transaction), translated from
`src/cypher/statement.rs`, `src/cypher/result.rs`, `src/cypher/mod.rs`
and `src/cypher/transaction.rs`.
-/

namespace RustedCypher

/-- JSON values, mirroring `serde_json::Value` (numbers restricted to
integers, which suffices for every claim considered here). -/
inductive JVal where
  | null
  | bool (b : Bool)
  | num (n : Int)
  | str (s : String)
  | arr (items : List JVal)
  | obj (fields : List (String × JVal))

/-- Structured server-reported error, from `src/error.rs` (`Neo4jError`). -/
structure Neo4jError where
  message : String
  code : String
deriving Repr, DecidableEq

/-- Driver error type.  The constructors `other` (`GraphError::new`),
`neo4j` (`GraphError::new_neo4j_error`) and `serde` (`GraphError::new_error`
wrapping a `serde_json` error) come from `src/error.rs`; the constructors
`transaction`, `statement`, `timeParse` and `transport` are the enum
variants used by `src/cypher/transaction.rs` and `src/cypher/result.rs`
(`GraphError::Transaction`, `GraphError::Statement`, ...).
Modelled from the spec: the enum-style `GraphError` declaration itself is
not under `src/` (only its call sites are); §7 of the spec gives the
taxonomy `Neo4j(errors)`, `Transaction(message)`,
`Serialization`/`Deserialization`, `Transport`, `Other(message)`. -/
inductive GraphError where
  | other (message : String)
  | neo4j (errors : List Neo4jError)
  | serde (message : String)
  | transaction (message : String)
  | statement (message : String)
  | timeParse (message : String)
  | transport (message : String)
deriving Repr, DecidableEq

/-- Insertion into a `BTreeMap<String, Value>`: replaces the binding of an
existing key (last write wins), otherwise appends a new binding. -/
def paramsInsert : List (String × JVal) → String → JVal → List (String × JVal)
  | [], k, v => [(k, v)]
  | (k', v') :: rest, k, v =>
    if k' = k then (k, v) :: rest else (k', v') :: paramsInsert rest k v

/-- Lookup in a `BTreeMap<String, Value>` (keys are unique). -/
def paramsGet : List (String × JVal) → String → Option JVal
  | [], _ => none
  | (k', v') :: rest, k => if k' = k then some v' else paramsGet rest k

/-- A statement to be sent to the server, from `src/cypher/statement.rs`:
query text plus a named-parameter map. -/
structure Statement where
  statement : String
  parameters : List (String × JVal)

/-- `Statement::new`: statement text with empty parameters. -/
def Statement.new (text : String) : Statement :=
  { statement := text, parameters := [] }

/-- `Statement::add_param`: serializes the value immediately
(`serde_json::value::to_value(&value)?`) and inserts it into the parameter
map; a serialization failure is returned at insertion time.  The Rust
method mutates `self` and returns `Result<(), JsonError>`; here the updated
statement is returned in the success case.  `to_value` stands for the
serde serialization of the parameter type `V`. -/
def Statement.add_param {V : Type} (to_value : V → Except String JVal)
    (s : Statement) (key : String) (value : V) : Except String Statement :=
  match to_value value with
  | .error e => .error e
  | .ok j => .ok { s with parameters := paramsInsert s.parameters key j }

/-- `Statement::with_param`: builder style, consumes `self`, delegates to
`add_param` and returns the statement. -/
def Statement.with_param {V : Type} (to_value : V → Except String JVal)
    (s : Statement) (key : String) (value : V) : Except String Statement :=
  s.add_param to_value key value

/-- `Statement::param`: looks the key up and attempts to convert the stored
JSON value back (`serde_json::value::from_value`); `none` when the key is
absent, `some (.error _)` when present but not of the requested shape. -/
def Statement.param {T : Type} (from_value : JVal → Except String T)
    (s : Statement) (key : String) : Option (Except String T) :=
  (paramsGet s.parameters key).map from_value

/-- Serialization of a `Statement` as in its `#[derive(Serialize)]`:
`{"statement": text, "parameters": {..}}`. -/
def Statement.toJson (s : Statement) : JVal :=
  .obj [("statement", .str s.statement), ("parameters", .obj s.parameters)]

/-- The request envelope built by `send_query` in `src/cypher/mod.rs`:
`{"statements": [...]}`, statements serialized in order. -/
def statementsEnvelope (statements : List Statement) : JVal :=
  .obj [("statements", .arr (statements.map Statement.toJson))]

/-- One row of a decoded result, from `src/cypher/result.rs`
(`RowResult`): the positional list of JSON values. -/
structure RowResult where
  row : List JVal

/-- A decoded statement result, from `src/cypher/result.rs`
(`CypherResult`): column names plus data rows. -/
structure CypherResult where
  columns : List String
  data : List RowResult

/-- A borrowed view of one row (`Row` in `src/cypher/result.rs`): the
parent's column list plus the row's positional values. -/
structure Row where
  columns : List String
  data : List JVal

/-- `CypherResult::rows`: one `Row` view per data row, in order. -/
def CypherResult.rows (res : CypherResult) : List Row :=
  res.data.map (fun d => { columns := res.columns, data := d.row })

/-- `Row::get_n`: positional typed extraction.  Out-of-range indices
produce the `No column at index {i}` statement error; in-range values are
deserialized, deserialization failures being wrapped by
`map_err(From::from)` (a serde error). -/
def Row.get_n {T : Type} (from_value : JVal → Except String T)
    (r : Row) (column : Nat) : Except GraphError T :=
  match r.data.get? column with
  | some c => (from_value c).mapError GraphError.serde
  | none => .error (GraphError.statement ("No column at index " ++ toString column))

/-- `Row::get`: name-indexed typed extraction.  Resolves the name to a
positional index via `self.columns.iter().position(|c| c == column)`; an
absent name produces the distinct `No such column: {name}` statement
error. -/
def Row.get {T : Type} (from_value : JVal → Except String T)
    (r : Row) (column : String) : Except GraphError T :=
  match r.columns.findIdx? (fun c => c == column) with
  | some index => r.get_n from_value index
  | none => .error (GraphError.statement ("No such column: " ++ column))

/-- The auto-commit response envelope, from `src/cypher/result.rs`
(`QueryResult`). -/
structure QueryResult where
  results : List CypherResult
  errors : List Neo4jError

/-- Transaction metadata carried by transaction-lifecycle responses
(`TransactionInfo` in `src/cypher/transaction.rs`). -/
structure TransactionInfo where
  expires : String
deriving Repr, DecidableEq

/-- The transaction-lifecycle response envelope (`TransactionResult` in
`src/cypher/transaction.rs`). -/
structure TransactionResult where
  commit : String
  transaction : TransactionInfo
  results : List CypherResult
  errors : List Neo4jError

/-- The commit response envelope (`CommitResult` in
`src/cypher/transaction.rs`). -/
structure CommitResult where
  results : List CypherResult
  errors : List Neo4jError

/-- Serde field access on a decoded JSON value: a struct deserializes from
an object and each named field must be present. -/
def JVal.getField (j : JVal) (key : String) : Except String JVal :=
  match j with
  | .obj fields =>
    match paramsGet fields key with
    | some v => .ok v
    | none => .error ("missing field `" ++ key ++ "`")
  | _ => .error "invalid type: expected a map"

/-- Serde deserialization of `String`. -/
def JVal.asStr : JVal → Except String String
  | .str s => .ok s
  | _ => .error "invalid type: expected a string"

/-- Serde deserialization of `Vec<T>` given the element deserializer. -/
def JVal.asArrOf {T : Type} (elem : JVal → Except String T) :
    JVal → Except String (List T)
  | .arr items => items.mapM elem
  | _ => .error "invalid type: expected a sequence"

/-- Derived `Deserialize` for `Neo4jError` (fields `message`, `code`). -/
def decodeNeo4jError (j : JVal) : Except String Neo4jError := do
  let message ← (← j.getField "message").asStr
  let code ← (← j.getField "code").asStr
  .ok { message := message, code := code }

/-- Derived `Deserialize` for `RowResult` (field `row`). -/
def decodeRowResult (j : JVal) : Except String RowResult := do
  let row ← (← j.getField "row").asArrOf .ok
  .ok { row := row }

/-- Derived `Deserialize` for `CypherResult` (fields `columns`, `data`). -/
def decodeCypherResult (j : JVal) : Except String CypherResult := do
  let columns ← (← j.getField "columns").asArrOf JVal.asStr
  let data ← (← j.getField "data").asArrOf decodeRowResult
  .ok { columns := columns, data := data }

/-- Derived `Deserialize` for `QueryResult` (fields `results`, `errors`). -/
def decodeQueryResult (j : JVal) : Except String QueryResult := do
  let results ← (← j.getField "results").asArrOf decodeCypherResult
  let errors ← (← j.getField "errors").asArrOf decodeNeo4jError
  .ok { results := results, errors := errors }

/-- Derived `Deserialize` for `TransactionInfo` (field `expires`). -/
def decodeTransactionInfo (j : JVal) : Except String TransactionInfo := do
  let expires ← (← j.getField "expires").asStr
  .ok { expires := expires }

/-- Derived `Deserialize` for `TransactionResult` (fields `commit`,
`transaction`, `results`, `errors`). -/
def decodeTransactionResult (j : JVal) : Except String TransactionResult := do
  let commit ← (← j.getField "commit").asStr
  let info ← decodeTransactionInfo (← j.getField "transaction")
  let results ← (← j.getField "results").asArrOf decodeCypherResult
  let errors ← (← j.getField "errors").asArrOf decodeNeo4jError
  .ok { commit := commit, transaction := info, results := results, errors := errors }

/-- Derived `Deserialize` for `CommitResult` (fields `results`, `errors`). -/
def decodeCommitResult (j : JVal) : Except String CommitResult := do
  let results ← (← j.getField "results").asArrOf decodeCypherResult
  let errors ← (← j.getField "errors").asArrOf decodeNeo4jError
  .ok { results := results, errors := errors }

/-- An HTTP response as seen by this core: the `Location` header (when
present) and the JSON-syntax parse outcome of the body bytes
(`serde_json::de::from_reader`). -/
structure Response where
  location : Option String
  body : Except String JVal

/-- The HTTP transport: POSTing a serialized request body to an endpoint
either fails at the transport layer or yields a `Response`.  Both the
query batch and the transaction layer go through this single primitive. -/
def ServerFn : Type := String → JVal → Except GraphError Response

/-- `send_query` of `src/cypher/mod.rs`: serializes `{"statements": [...]}`
(statements in the order they were added) and POSTs it to the endpoint,
yielding the raw response. -/
def send_query (server : ServerFn) (endpoint : String)
    (statements : List Statement) : Except GraphError Response :=
  server endpoint (statementsEnvelope statements)

/-- `parse_response` of `src/cypher/mod.rs`: decodes the body into the
expected envelope type `T` (JSON-syntax parse chained with
`from_value::<T>`, any failure becoming a serde error), then checks the
structured error list: a non-empty `errors` list yields `Neo4j(errors)`
even when the rest of the envelope decoded cleanly. -/
def parse_response {T : Type} (from_value : JVal → Except String T)
    (errorsOf : T → List Neo4jError) (body : Except String JVal) :
    Except GraphError T :=
  match body.bind from_value with
  | .error e => .error (GraphError.serde e)
  | .ok result =>
    if 0 < (errorsOf result).length then .error (GraphError.neo4j (errorsOf result))
    else .ok result

/-- A query batch (`CypherQuery` in `src/cypher/mod.rs`): the statements
accumulated so far, in addition order. -/
structure CypherQuery where
  statements : List Statement

/-- `Cypher::query`: an empty batch. -/
def CypherQuery.empty : CypherQuery := { statements := [] }

/-- `CypherQuery::add_statement`: appends (`Vec::push`). -/
def CypherQuery.add_statement (q : CypherQuery) (s : Statement) : CypherQuery :=
  { q with statements := q.statements ++ [s] }

/-- `CypherQuery::with_statement`: builder style, same append. -/
def CypherQuery.with_statement (q : CypherQuery) (s : Statement) : CypherQuery :=
  q.add_statement s

/-- `CypherQuery::send`: POSTs the batch to `{endpoint}/commit`, parses the
response as a `QueryResult` (with the non-empty-errors check of
`parse_response`, re-checked once more as in the source), and returns the
decoded results list unchanged. -/
def CypherQuery.send (server : ServerFn) (endpoint : String)
    (q : CypherQuery) : Except GraphError (List CypherResult) :=
  match send_query server (endpoint ++ "/commit") q.statements with
  | .error e => .error e
  | .ok res =>
    match parse_response decodeQueryResult QueryResult.errors res.body with
    | .error e => .error e
    | .ok result =>
      if 0 < result.errors.length then .error (GraphError.neo4j result.errors)
      else .ok result.results

/-- `Cypher::exec`: a single-statement batch; `results.pop()` takes the
last element of the decoded results list, and an empty list is the error
`No results returned from server` (the catch-all `GraphError::new`). -/
def Cypher.exec (server : ServerFn) (endpoint : String)
    (statement : Statement) : Except GraphError CypherResult :=
  let query := CypherQuery.empty.add_statement statement
  match query.send server endpoint with
  | .error e => .error e
  | .ok results =>
    match results.getLast? with
    | some result => .ok result
    | none => .error (GraphError.other "No results returned from server")

/-- A parsed expiry timestamp (`time::Tm`), identified by the RFC822 text
it was parsed from; the driver only stores and compares it. -/
structure Tm where
  raw : String
deriving Repr, DecidableEq

/-- The RFC822 parser `time::strptime(_, "%a, %d %b %Y %T %Z")`, kept
abstract: any parser of this type can be plugged in. -/
def Strptime : Type := String → Except String Tm

/-- `Transaction<Created>` (from `src/cypher/transaction.rs`): both URIs
start as the endpoint, `expires` as the current time, no statements. -/
structure TransactionCreated where
  transaction : String
  commit : String
  expires : Tm
  statements : List Statement

/-- `Transaction::new`: a `Created` transaction for the endpoint. -/
def Transaction.new (endpoint : String) (now : Tm) : TransactionCreated :=
  { transaction := endpoint, commit := endpoint, expires := now, statements := [] }

/-- `Transaction::add_statement` on a `Created` transaction: buffers
locally (`Vec::push`), no network I/O. -/
def TransactionCreated.add_statement (t : TransactionCreated) (s : Statement) :
    TransactionCreated :=
  { t with statements := t.statements ++ [s] }

/-- `Transaction<Created>::with_statement`: builder style, same append. -/
def TransactionCreated.with_statement (t : TransactionCreated) (s : Statement) :
    TransactionCreated :=
  t.add_statement s

/-- `Transaction<Started>`: a live server-side transaction resource with
its resource URI, commit URI, expiry, and locally buffered statements. -/
structure TransactionStarted where
  transaction : String
  commit : String
  expires : Tm
  statements : List Statement

/-- `Transaction::add_statement` on a `Started` transaction. -/
def TransactionStarted.add_statement (t : TransactionStarted) (s : Statement) :
    TransactionStarted :=
  { t with statements := t.statements ++ [s] }

/-- `Transaction<Started>::with_statement`. -/
def TransactionStarted.with_statement (t : TransactionStarted) (s : Statement) :
    TransactionStarted :=
  t.add_statement s

/-- `Transaction<Created>::begin`: POSTs the buffered statements to the
transaction-create endpoint, parses the body as a `TransactionResult`
(non-empty `errors` aborting with `Neo4j(errors)`), then requires the
`Location` header — its absence is the fatal
`Transaction("No transaction URI returned from server")` error — then
parses the expiry, and returns the `Started` handle (empty buffer) with
the results. -/
def TransactionCreated.begin (server : ServerFn) (strptime : Strptime)
    (t : TransactionCreated) :
    Except GraphError (TransactionStarted × List CypherResult) :=
  match send_query server t.transaction t.statements with
  | .error e => .error e
  | .ok res =>
    match parse_response decodeTransactionResult TransactionResult.errors res.body with
    | .error e => .error e
    | .ok result =>
      match res.location with
      | none => .error (GraphError.transaction "No transaction URI returned from server")
      | some location =>
        match strptime result.transaction.expires with
        | .error e => .error (GraphError.timeParse e)
        | .ok expires =>
          .ok ({ transaction := location, commit := result.commit,
                 expires := expires, statements := [] }, result.results)

/-- `Transaction<Started>::send`: swaps the buffered statements out
(`mem::swap`, leaving the buffer empty), POSTs them to the resource URI,
parses a `TransactionResult`, updates `expires` from the response, and
returns the updated transaction with the results. -/
def TransactionStarted.send (server : ServerFn) (strptime : Strptime)
    (t : TransactionStarted) :
    Except GraphError (TransactionStarted × List CypherResult) :=
  match send_query server t.transaction t.statements with
  | .error e => .error e
  | .ok res =>
    match parse_response decodeTransactionResult TransactionResult.errors res.body with
    | .error e => .error e
    | .ok result =>
      match strptime result.transaction.expires with
      | .error e => .error (GraphError.timeParse e)
      | .ok expires =>
        .ok ({ t with statements := [], expires := expires }, result.results)

/-- `Transaction<Started>::exec`: clears the buffer
(`self.statements.clear()`), adds the given statement, delegates to
`send`, and pops the last result; an empty results list is the error
`Statement("Server returned no results")`. -/
def TransactionStarted.exec (server : ServerFn) (strptime : Strptime)
    (t : TransactionStarted) (statement : Statement) :
    Except GraphError (TransactionStarted × CypherResult) :=
  let t1 : TransactionStarted := { t with statements := [statement] }
  match t1.send server strptime with
  | .error e => .error e
  | .ok (t2, results) =>
    match results.getLast? with
    | some result => .ok (t2, result)
    | none => .error (GraphError.statement "Server returned no results")

/-- `Transaction<Started>::commit`: POSTs any buffered statements to the
commit URI and parses a `CommitResult`; the handle is consumed. -/
def Transaction.commit (server : ServerFn) (t : TransactionStarted) :
    Except GraphError (List CypherResult) :=
  match send_query server t.commit t.statements with
  | .error e => .error e
  | .ok res =>
    match parse_response decodeCommitResult CommitResult.errors res.body with
    | .error e => .error e
    | .ok result => .ok result.results

/-- `Transaction<Started>::reset_timeout`: POSTs an empty statement list to
the resource URI and discards the response (`send_query(...).map(|_| ())`);
no field of the transaction is touched, so the unchanged transaction
stands for the mutated-in-place `&mut self`. -/
def TransactionStarted.reset_timeout (server : ServerFn)
    (t : TransactionStarted) : Except GraphError TransactionStarted :=
  match send_query server t.transaction [] with
  | .error e => .error e
  | .ok _ => .ok t

/-! Concrete fixtures used to instantiate the theorems below on closed
inputs: servers with fixed or echoing behaviour, response bodies, and
transactions in given states. -/

/-- A server returning one fixed response for every request. -/
def constServer (location : Option String) (body : JVal) : ServerFn :=
  fun _ _ => .ok { location := location, body := .ok body }

/-- A well-formed transaction response body that embeds a given JSON value
(the request envelope, for the echoing server) in its single result row. -/
def echoBody (env : JVal) : JVal :=
  .obj [("commit", .str "http://db/data/transaction/11/commit"),
        ("transaction", .obj [("expires", .str "Tue, 01 Jan 2030 00:00:00 GMT")]),
        ("results", .arr [.obj [("columns", .arr [.str "echo"]),
                                ("data", .arr [.obj [("row", .arr [env])]])]]),
        ("errors", .arr [])]

/-- A server echoing the request envelope it receives back inside the
result row of a well-formed transaction response. -/
def echoServer : ServerFn :=
  fun _ env => .ok { location := some "http://db/data/transaction/11", body := .ok (echoBody env) }

/-- An RFC822 parser accepting every string, keeping the raw text. -/
def strptimeRaw : Strptime := fun s => .ok { raw := s }

/-- Serde serialization of `Int` parameters. -/
def intToJson : Int → Except String JVal := fun n => .ok (.num n)

/-- Serde deserialization of `Int` values. -/
def intFromJson : JVal → Except String Int
  | .num n => .ok n
  | _ => .error "invalid type: expected an integer"

/-- A serializer that always fails, like `to_value` on a NaN float. -/
def nanToJson : Int → Except String JVal :=
  fun _ => .error "NaN cannot be serialized"

/-- A response body whose `results` array is structurally valid while the
`errors` list is non-empty (partial execution). -/
def bodyWithErrors : JVal :=
  .obj [("results", .arr [.obj [("columns", .arr [.str "n"]),
                                ("data", .arr [.obj [("row", .arr [.num 1])]])]]),
        ("errors", .arr [.obj [("message", .str "Invalid syntax"),
                               ("code", .str "Neo.ClientError.Statement.SyntaxError")]])]

/-- The error list carried by `bodyWithErrors`. -/
def errorsFixture : List Neo4jError :=
  [{ message := "Invalid syntax", code := "Neo.ClientError.Statement.SyntaxError" }]

/-- The decoded form of `bodyWithErrors`. -/
def resultWithErrors : QueryResult :=
  { results := [{ columns := ["n"], data := [{ row := [.num 1] }] }],
    errors := errorsFixture }

/-- A well-formed transaction response body with empty results and no
errors. -/
def bodyTxOk : JVal :=
  .obj [("commit", .str "http://db/data/transaction/8/commit"),
        ("transaction", .obj [("expires", .str "Tue, 01 Jan 2030 00:00:00 GMT")]),
        ("results", .arr []),
        ("errors", .arr [])]

/-- The decoded form of `bodyTxOk`. -/
def resultTxOk : TransactionResult :=
  { commit := "http://db/data/transaction/8/commit",
    transaction := { expires := "Tue, 01 Jan 2030 00:00:00 GMT" },
    results := [], errors := [] }

/-- First of two distinguishable decoded results. -/
def cResA : CypherResult := { columns := ["a"], data := [] }

/-- Second of two distinguishable decoded results. -/
def cResB : CypherResult := { columns := ["b"], data := [] }

/-- An auto-commit response body with two results and no errors. -/
def bodyTwoResults : JVal :=
  .obj [("results", .arr [.obj [("columns", .arr [.str "a"]), ("data", .arr [])],
                          .obj [("columns", .arr [.str "b"]), ("data", .arr [])]]),
        ("errors", .arr [])]

/-- The decoded form of `bodyTwoResults`. -/
def resultTwo : QueryResult := { results := [cResA, cResB], errors := [] }

/-- An auto-commit response body with empty results and no errors. -/
def bodyNoResults : JVal :=
  .obj [("results", .arr []), ("errors", .arr [])]

/-- The decoded form of `bodyNoResults`. -/
def resultNone : QueryResult := { results := [], errors := [] }

/-- A transaction response body with empty results and no errors. -/
def bodyTxNoResults : JVal :=
  .obj [("commit", .str "http://db/data/transaction/9/commit"),
        ("transaction", .obj [("expires", .str "Tue, 01 Jan 2030 00:00:00 GMT")]),
        ("results", .arr []),
        ("errors", .arr [])]

/-- The decoded form of `bodyTxNoResults`. -/
def resultTxNoResults : TransactionResult :=
  { commit := "http://db/data/transaction/9/commit",
    transaction := { expires := "Tue, 01 Jan 2030 00:00:00 GMT" },
    results := [], errors := [] }

/-- A transaction response body with two results and no errors. -/
def bodyTxTwoResults : JVal :=
  .obj [("commit", .str "http://db/data/transaction/10/commit"),
        ("transaction", .obj [("expires", .str "Tue, 01 Jan 2030 00:00:00 GMT")]),
        ("results", .arr [.obj [("columns", .arr [.str "a"]), ("data", .arr [])],
                          .obj [("columns", .arr [.str "b"]), ("data", .arr [])]]),
        ("errors", .arr [])]

/-- The decoded form of `bodyTxTwoResults`. -/
def resultTxTwo : TransactionResult :=
  { commit := "http://db/data/transaction/10/commit",
    transaction := { expires := "Tue, 01 Jan 2030 00:00:00 GMT" },
    results := [cResA, cResB], errors := [] }

/-- A transaction response body carrying a fresh expiry. -/
def bodyFreshExpiry : JVal :=
  .obj [("commit", .str "http://db/data/transaction/12/commit"),
        ("transaction", .obj [("expires", .str "Wed, 02 Feb 2033 00:00:00 GMT")]),
        ("results", .arr []),
        ("errors", .arr [])]

/-- A started transaction with one buffered statement. -/
def tBuffered : TransactionStarted :=
  { transaction := "http://db/data/transaction/11",
    commit := "http://db/data/transaction/11/commit",
    expires := { raw := "Mon, 01 Jan 2024 00:00:00 GMT" },
    statements := [Statement.new "CREATE (a)"] }

/-- A started transaction with an empty buffer. -/
def tIdle : TransactionStarted :=
  { transaction := "http://db/data/transaction/12",
    commit := "http://db/data/transaction/12/commit",
    expires := { raw := "Mon, 01 Jan 2024 00:00:00 GMT" },
    statements := [] }

/-- A single-statement batch. -/
def qOne : CypherQuery :=
  CypherQuery.empty.add_statement (Statement.new "MATCH (n) RETURN n")

/-- A two-statement batch. -/
def qTwo : CypherQuery :=
  (CypherQuery.empty.add_statement (Statement.new "RETURN 1")).add_statement
    (Statement.new "RETURN 2")

/-! Helper lemmas shared by several claims. -/

/-- Looking up a key right after inserting it yields the inserted value. -/
theorem paramsGet_paramsInsert (m : List (String × JVal)) (k : String) (v : JVal) :
    paramsGet (paramsInsert m k v) k = some v := by
  induction m with
  | nil => simp [paramsInsert, paramsGet]
  | cons hd tl ih =>
    obtain ⟨k', v'⟩ := hd
    by_cases h : k' = k
    · simp [paramsInsert, h, paramsGet]
    · simp [paramsInsert, h, paramsGet, ih]

/-- When the decoded envelope carries no errors, `parse_response` succeeds
with the decoded value. -/
theorem parse_response_ok {T : Type} (from_value : JVal → Except String T)
    (errorsOf : T → List Neo4jError) (body : Except String JVal) (result : T)
    (hdecode : body.bind from_value = .ok result)
    (herr : errorsOf result = []) :
    parse_response from_value errorsOf body = .ok result := by
  unfold parse_response
  rw [hdecode]
  simp [herr]

/-- When the decoded envelope carries a non-empty error list,
`parse_response` fails with exactly that list. -/
theorem parse_response_neo4j {T : Type} (from_value : JVal → Except String T)
    (errorsOf : T → List Neo4jError) (body : Except String JVal) (result : T)
    (hdecode : body.bind from_value = .ok result)
    (herr : errorsOf result ≠ []) :
    parse_response from_value errorsOf body
      = .error (GraphError.neo4j (errorsOf result)) := by
  unfold parse_response
  rw [hdecode]
  simp [List.length_pos.mpr herr]

/-- Successful evaluation of `CypherQuery::send`: the decoded results list
is returned unchanged. -/
theorem query_send_ok (server : ServerFn) (endpoint : String)
    (q : CypherQuery) (res : Response) (result : QueryResult)
    (hsend : send_query server (endpoint ++ "/commit") q.statements = .ok res)
    (hdecode : res.body.bind decodeQueryResult = .ok result)
    (herr : result.errors = []) :
    q.send server endpoint = .ok result.results := by
  unfold CypherQuery.send
  rw [hsend]
  simp [parse_response_ok decodeQueryResult QueryResult.errors res.body result hdecode herr, herr]

/-- Successful evaluation of `Transaction<Started>::send`: the buffer is
emptied, `expires` is taken from the response, the decoded results list is
returned unchanged. -/
theorem txn_send_ok (server : ServerFn) (strptime : Strptime)
    (t : TransactionStarted) (res : Response) (result : TransactionResult)
    (expires : Tm)
    (hsend : send_query server t.transaction t.statements = .ok res)
    (hdecode : res.body.bind decodeTransactionResult = .ok result)
    (herr : result.errors = [])
    (hexp : strptime result.transaction.expires = .ok expires) :
    t.send server strptime
      = .ok ({ t with statements := [], expires := expires }, result.results) := by
  unfold TransactionStarted.send
  rw [hsend]
  simp [parse_response_ok decodeTransactionResult TransactionResult.errors res.body result hdecode herr,
    hexp]

/-! Claim theorems. -/

/-- Claim C8: for every `Row` and every column name absent from the
parent's column list, `Row::get::<T>(name)` returns the distinct
`No such column` error (`GraphError::Statement`), never a generic
deserialization error, regardless of the target type `T`. -/
theorem claim_C8 (T : Type) (from_value : JVal → Except String T)
    (r : Row) (column : String) (habsent : column ∉ r.columns) :
    r.get from_value column
      = .error (GraphError.statement ("No such column: " ++ column)) := by
  unfold Row.get
  have hnone : r.columns.findIdx? (fun c => c == column) = none := by
    rw [List.findIdx?_eq_none_iff]
    intro x hx
    simp only [beq_eq_false_iff_ne, ne_eq]
    intro hxc
    exact habsent (hxc ▸ hx)
  rw [hnone]

/-- Witness for C8: a concrete row whose result set has only column `n`;
asking for `missing` yields the distinct statement error. -/
theorem claim_C8_witness :
    (Row.mk ["n"] [.num 1]).get (fun j => Except.ok j) "missing"
      = .error (GraphError.statement ("No such column: " ++ "missing")) :=
  claim_C8 JVal (fun j => Except.ok j) (Row.mk ["n"] [.num 1]) "missing"
    (by simp)

/-- Claim C9: `Row::get_n::<T>(i)` is total: out of range it returns the
`No column at index {i}` error (it never panics or reads out of bounds),
in range it deserializes the value at position `i`. -/
theorem claim_C9 (T : Type) (from_value : JVal → Except String T)
    (r : Row) (i : Nat) :
    r.get_n from_value i =
      if h : i < r.data.length
      then (from_value (r.data.get ⟨i, h⟩)).mapError GraphError.serde
      else .error (GraphError.statement ("No column at index " ++ toString i)) := by
  unfold Row.get_n
  rcases Nat.lt_or_ge i r.data.length with h | h
  · rw [List.get?_eq_get h]
    simp [h]
  · rw [List.get?_eq_none.mpr h]
    simp [Nat.not_lt.mpr h]

/-- Claim C1: for every server response body that parses as JSON and
decodes with a non-empty errors list, `parse_response` returns the Neo4j
error carrying that list, and `CypherQuery::send` returns that error and
no `CypherResult` values — even when the `results` array in the same body
is structurally valid, a batch with any reported error is never returned
as partially successful. -/
theorem claim_C1 (server : ServerFn) (endpoint : String) (q : CypherQuery)
    (res : Response) (result : QueryResult)
    (hsend : send_query server (endpoint ++ "/commit") q.statements = .ok res)
    (hdecode : res.body.bind decodeQueryResult = .ok result)
    (herr : result.errors ≠ []) :
    parse_response decodeQueryResult QueryResult.errors res.body
      = .error (GraphError.neo4j result.errors)
    ∧ q.send server endpoint = .error (GraphError.neo4j result.errors) := by
  have hp := parse_response_neo4j decodeQueryResult QueryResult.errors res.body result hdecode herr
  refine ⟨hp, ?_⟩
  unfold CypherQuery.send
  rw [hsend]
  simp [hp]

/-- Witness for C1: a concrete body with a structurally valid results
array and one reported error; `send` yields the Neo4j error and no
results. -/
theorem claim_C1_witness :
    resultWithErrors.errors ≠ []
    ∧ qOne.send (constServer none bodyWithErrors) "http://db/data/transaction"
        = .error (GraphError.neo4j errorsFixture) :=
  ⟨by decide,
   (claim_C1 (constServer none bodyWithErrors) "http://db/data/transaction"
     qOne { location := none, body := .ok bodyWithErrors } resultWithErrors
     rfl rfl (by decide)).2⟩

/-- Claim C2: for every server response to `Transaction::begin()` whose
body decodes successfully (no reported errors) but whose headers lack a
`Location` header, `begin` returns the `GraphError::Transaction` error and
never produces a `Started` transaction handle. -/
theorem claim_C2 (server : ServerFn) (strptime : Strptime)
    (t : TransactionCreated) (res : Response) (result : TransactionResult)
    (hsend : send_query server t.transaction t.statements = .ok res)
    (hdecode : res.body.bind decodeTransactionResult = .ok result)
    (herr : result.errors = [])
    (hloc : res.location = none) :
    t.begin server strptime
      = .error (GraphError.transaction "No transaction URI returned from server") := by
  unfold TransactionCreated.begin
  rw [hsend]
  simp [parse_response_ok decodeTransactionResult TransactionResult.errors
    res.body result hdecode herr, hloc]

/-- Witness for C2: a concrete well-formed begin response without a
`Location` header. -/
theorem claim_C2_witness :
    (Transaction.new "http://db/data/transaction" { raw := "now" }).begin
        (constServer none bodyTxOk) strptimeRaw
      = .error (GraphError.transaction "No transaction URI returned from server") :=
  claim_C2 (constServer none bodyTxOk) strptimeRaw
    (Transaction.new "http://db/data/transaction" { raw := "now" })
    { location := none, body := .ok bodyTxOk } resultTxOk rfl rfl rfl rfl

/-- Claim C5: for every non-empty batch whose `send` succeeds, the
returned sequence is exactly the decoded results list, unchanged — so when
the server honours the protocol (one result per statement, in order, no
errors) the result sequence has the same length as the statement list and
`result[i]` answers `statement[i]`; statements enter the request envelope
in addition order (`add_statement` appends). -/
theorem claim_C5 (server : ServerFn) (endpoint : String) (q : CypherQuery)
    (res : Response) (result : QueryResult)
    (_hne : q.statements ≠ [])
    (hsend : send_query server (endpoint ++ "/commit") q.statements = .ok res)
    (hdecode : res.body.bind decodeQueryResult = .ok result)
    (herr : result.errors = [])
    (hlen : result.results.length = q.statements.length) :
    q.send server endpoint = .ok result.results
    ∧ result.results.length = q.statements.length
    ∧ ∀ (q' : CypherQuery) (s : Statement),
        (q'.add_statement s).statements = q'.statements ++ [s] :=
  ⟨query_send_ok server endpoint q res result hsend hdecode herr,
   hlen, fun _ _ => rfl⟩

/-- Witness for C5: a concrete two-statement batch against a server
answering with two results; `send` returns both, aligned. -/
theorem claim_C5_witness :
    qTwo.statements ≠ []
    ∧ resultTwo.results.length = qTwo.statements.length
    ∧ qTwo.send (constServer none bodyTwoResults) "http://db/data/transaction"
        = .ok [cResA, cResB] :=
  ⟨List.cons_ne_nil _ _, rfl,
   (claim_C5 (constServer none bodyTwoResults) "http://db/data/transaction"
     qTwo { location := none, body := .ok bodyTwoResults } resultTwo
     (List.cons_ne_nil _ _) rfl rfl rfl rfl).1⟩

/-- Claim C6: after `with_param(k, v)` (or `add_param(k, v)`) succeeds on a
statement, `param::<T>(k)` returns `Some(Ok(v))` for every value whose
serde serialization round-trips; and `add_param` serializes immediately,
returning the error at insertion time when serialization fails. -/
theorem claim_C6 :
    (∀ (V : Type) (to_value : V → Except String JVal)
        (from_value : JVal → Except String V) (s : Statement) (key : String)
        (v : V) (j : JVal),
      to_value v = .ok j → from_value j = .ok v →
      ∃ s', s.with_param to_value key v = .ok s'
        ∧ s'.param from_value key = some (.ok v))
    ∧ (∀ (V : Type) (to_value : V → Except String JVal) (s : Statement)
        (key : String) (v : V) (e : String),
      to_value v = .error e → s.add_param to_value key v = .error e) := by
  constructor
  · intro V to_value from_value s key v j hto hfrom
    refine ⟨{ s with parameters := paramsInsert s.parameters key j }, ?_, ?_⟩
    · unfold Statement.with_param Statement.add_param
      rw [hto]
    · unfold Statement.param
      rw [paramsGet_paramsInsert]
      simp [hfrom]
  · intro V to_value s key v e hto
    unfold Statement.add_param
    rw [hto]

/-- Witness for C6: an integer parameter round-trips through the
parameter map, and a failing serializer is rejected at insertion time. -/
theorem claim_C6_witness :
    intToJson 7 = .ok (.num 7)
    ∧ intFromJson (.num 7) = .ok 7
    ∧ (∃ s', (Statement.new "MATCH n RETURN n").with_param intToJson "value" 7 = .ok s'
        ∧ s'.param intFromJson "value" = some (.ok 7))
    ∧ (Statement.new "MATCH n RETURN n").add_param nanToJson "value" 7
        = .error "NaN cannot be serialized" :=
  ⟨rfl, rfl,
   claim_C6.1 Int intToJson intFromJson (Statement.new "MATCH n RETURN n")
     "value" 7 (.num 7) rfl rfl,
   claim_C6.2 Int nanToJson (Statement.new "MATCH n RETURN n")
     "value" 7 "NaN cannot be serialized" rfl⟩

/-- Claim C7: a single-statement `exec` whose request succeeds but whose
decoded response carries an empty results list (and no reported errors)
returns an error — the catch-all `No results returned from server` for
`Cypher::exec` and the `Statement` error `Server returned no results` for
`Transaction::exec` — never a default or empty `CypherResult`. -/
theorem claim_C7 :
    (∀ (server : ServerFn) (endpoint : String) (stmt : Statement)
        (res : Response) (result : QueryResult),
      send_query server (endpoint ++ "/commit") [stmt] = .ok res →
      res.body.bind decodeQueryResult = .ok result →
      result.errors = [] →
      result.results = [] →
      Cypher.exec server endpoint stmt
        = .error (GraphError.other "No results returned from server"))
    ∧ (∀ (server : ServerFn) (strptime : Strptime) (t : TransactionStarted)
        (stmt : Statement) (res : Response) (result : TransactionResult)
        (expires : Tm),
      send_query server t.transaction [stmt] = .ok res →
      res.body.bind decodeTransactionResult = .ok result →
      result.errors = [] →
      strptime result.transaction.expires = .ok expires →
      result.results = [] →
      t.exec server strptime stmt
        = .error (GraphError.statement "Server returned no results")) := by
  constructor
  · intro server endpoint stmt res result hsend hdecode herr hres
    unfold Cypher.exec
    have hs := query_send_ok server endpoint
      (CypherQuery.empty.add_statement stmt) res result hsend hdecode herr
    simp [hs, hres]
  · intro server strptime t stmt res result expires hsend hdecode herr hexp hres
    unfold TransactionStarted.exec
    have hs := txn_send_ok server strptime
      { t with statements := [stmt] } res result expires hsend hdecode herr hexp
    simp [hs, hres]

/-- Witness for C7: concrete empty-results responses for both call
sites. -/
theorem claim_C7_witness :
    resultNone.results = []
    ∧ Cypher.exec (constServer none bodyNoResults) "http://db/data/transaction"
        (Statement.new "RETURN 1")
        = .error (GraphError.other "No results returned from server")
    ∧ tIdle.exec (constServer none bodyTxNoResults) strptimeRaw
        (Statement.new "RETURN 1")
        = .error (GraphError.statement "Server returned no results") :=
  ⟨rfl,
   claim_C7.1 (constServer none bodyNoResults) "http://db/data/transaction"
     (Statement.new "RETURN 1") { location := none, body := .ok bodyNoResults }
     resultNone rfl rfl rfl rfl,
   claim_C7.2 (constServer none bodyTxNoResults) strptimeRaw tIdle
     (Statement.new "RETURN 1") { location := none, body := .ok bodyTxNoResults }
     resultTxNoResults { raw := "Tue, 01 Jan 2030 00:00:00 GMT" }
     rfl rfl rfl rfl rfl⟩

/-- Claim C10: when the decoded response to a single-statement `exec`
contains more than one `CypherResult`, both `Cypher::exec` and
`Transaction::exec` return the last element (`results.pop()`) and silently
discard all earlier results. -/
theorem claim_C10 :
    (∀ (server : ServerFn) (endpoint : String) (stmt : Statement)
        (res : Response) (result : QueryResult) (rs : List CypherResult)
        (r : CypherResult),
      send_query server (endpoint ++ "/commit") [stmt] = .ok res →
      res.body.bind decodeQueryResult = .ok result →
      result.errors = [] →
      result.results = rs ++ [r] →
      rs ≠ [] →
      Cypher.exec server endpoint stmt = .ok r)
    ∧ (∀ (server : ServerFn) (strptime : Strptime) (t : TransactionStarted)
        (stmt : Statement) (res : Response) (result : TransactionResult)
        (expires : Tm) (rs : List CypherResult) (r : CypherResult),
      send_query server t.transaction [stmt] = .ok res →
      res.body.bind decodeTransactionResult = .ok result →
      result.errors = [] →
      strptime result.transaction.expires = .ok expires →
      result.results = rs ++ [r] →
      rs ≠ [] →
      t.exec server strptime stmt
        = .ok ({ t with statements := [], expires := expires }, r)) := by
  constructor
  · intro server endpoint stmt res result rs r hsend hdecode herr hres _hne
    unfold Cypher.exec
    have hs := query_send_ok server endpoint
      (CypherQuery.empty.add_statement stmt) res result hsend hdecode herr
    simp [hs, hres, List.getLast?_concat]
  · intro server strptime t stmt res result expires rs r hsend hdecode herr hexp hres _hne
    unfold TransactionStarted.exec
    have hs := txn_send_ok server strptime
      { t with statements := [stmt] } res result expires hsend hdecode herr hexp
    simp [hs, hres, List.getLast?_concat]

/-- Witness for C10: concrete two-result responses; both call sites return
the second result and drop the first. -/
theorem claim_C10_witness :
    resultTwo.results = [cResA] ++ [cResB]
    ∧ Cypher.exec (constServer none bodyTwoResults) "http://db/data/transaction"
        (Statement.new "RETURN 1")
        = .ok cResB
    ∧ tIdle.exec (constServer none bodyTxTwoResults) strptimeRaw
        (Statement.new "RETURN 1")
        = .ok ({ tIdle with statements := [], expires := { raw := "Tue, 01 Jan 2030 00:00:00 GMT" } }, cResB) :=
  ⟨rfl,
   claim_C10.1 (constServer none bodyTwoResults) "http://db/data/transaction"
     (Statement.new "RETURN 1") { location := none, body := .ok bodyTwoResults }
     resultTwo [cResA] cResB rfl rfl rfl rfl (List.cons_ne_nil _ _),
   claim_C10.2 (constServer none bodyTxTwoResults) strptimeRaw tIdle
     (Statement.new "RETURN 1") { location := none, body := .ok bodyTxTwoResults }
     resultTxTwo { raw := "Tue, 01 Jan 2030 00:00:00 GMT" } [cResA] cResB
     rfl rfl rfl rfl rfl (List.cons_ne_nil _ _)⟩

/-- Counterexample to C3 as stated: a started transaction holds one
buffered statement (`CREATE (a)`); `exec("RETURN 1")` against a server
that echoes the request envelope back succeeds with an echo of the
single-statement envelope `[RETURN 1]` — which differs from the envelope
of `[CREATE (a), RETURN 1]` — so `exec` posted only its own statement and
discarded the buffered one rather than sending them together. -/
theorem claim_C3_counterexample :
    tBuffered.exec echoServer strptimeRaw (Statement.new "RETURN 1")
      = .ok ({ tBuffered with statements := [], expires := { raw := "Tue, 01 Jan 2030 00:00:00 GMT" } },
             { columns := ["echo"],
               data := [{ row := [statementsEnvelope [Statement.new "RETURN 1"]] }] })
    ∧ statementsEnvelope [Statement.new "RETURN 1"]
        ≠ statementsEnvelope [Statement.new "CREATE (a)", Statement.new "RETURN 1"] := by
  constructor
  · rfl
  · intro h
    simp [statementsEnvelope, Statement.toJson, Statement.new] at h

/-- Claim C3 as amended: `send()` POSTs the buffered statements to the
resource URI, empties the buffer and updates `expires_at` from the
response; `exec(stmt)`, however, first clears the buffer — discarding any
previously buffered statements, as its own documentation states — and
POSTs only `stmt`, likewise emptying the buffer and updating `expires_at`
on success. -/
theorem claim_C3 :
    (∀ (server : ServerFn) (strptime : Strptime) (t : TransactionStarted)
        (res : Response) (result : TransactionResult) (expires : Tm),
      send_query server t.transaction t.statements = .ok res →
      res.body.bind decodeTransactionResult = .ok result →
      result.errors = [] →
      strptime result.transaction.expires = .ok expires →
      t.send server strptime
        = .ok ({ t with statements := [], expires := expires }, result.results))
    ∧ (∀ (server : ServerFn) (strptime : Strptime) (t : TransactionStarted)
        (stmt : Statement) (res : Response) (result : TransactionResult)
        (expires : Tm) (r : CypherResult),
      send_query server t.transaction [stmt] = .ok res →
      res.body.bind decodeTransactionResult = .ok result →
      result.errors = [] →
      strptime result.transaction.expires = .ok expires →
      result.results.getLast? = some r →
      t.exec server strptime stmt
        = .ok ({ t with statements := [], expires := expires }, r)) := by
  constructor
  · intro server strptime t res result expires hsend hdecode herr hexp
    exact txn_send_ok server strptime t res result expires
      hsend hdecode herr hexp
  · intro server strptime t stmt res result expires r hsend hdecode herr hexp hlast
    unfold TransactionStarted.exec
    have hs := txn_send_ok server strptime
      { t with statements := [stmt] } res result expires hsend hdecode herr hexp
    simp [hs, hlast]

/-- Witness for the amended C3: the buffered transaction's `send` posts
its buffer and empties it, and `exec` on the same transaction posts only
its own statement. -/
theorem claim_C3_witness :
    tBuffered.send echoServer strptimeRaw
      = .ok ({ tBuffered with statements := [], expires := { raw := "Tue, 01 Jan 2030 00:00:00 GMT" } },
             [{ columns := ["echo"],
                data := [{ row := [statementsEnvelope [Statement.new "CREATE (a)"]] }] }])
    ∧ tBuffered.exec echoServer strptimeRaw (Statement.new "RETURN 1")
      = .ok ({ tBuffered with statements := [], expires := { raw := "Tue, 01 Jan 2030 00:00:00 GMT" } },
             { columns := ["echo"],
               data := [{ row := [statementsEnvelope [Statement.new "RETURN 1"]] }] }) :=
  ⟨claim_C3.1 echoServer strptimeRaw tBuffered
     { location := some "http://db/data/transaction/11",
       body := .ok (echoBody (statementsEnvelope [Statement.new "CREATE (a)"])) }
     { commit := "http://db/data/transaction/11/commit",
       transaction := { expires := "Tue, 01 Jan 2030 00:00:00 GMT" },
       results := [{ columns := ["echo"],
                     data := [{ row := [statementsEnvelope [Statement.new "CREATE (a)"]] }] }],
       errors := [] }
     { raw := "Tue, 01 Jan 2030 00:00:00 GMT" } rfl rfl rfl rfl,
   claim_C3.2 echoServer strptimeRaw tBuffered (Statement.new "RETURN 1")
     { location := some "http://db/data/transaction/11",
       body := .ok (echoBody (statementsEnvelope [Statement.new "RETURN 1"])) }
     { commit := "http://db/data/transaction/11/commit",
       transaction := { expires := "Tue, 01 Jan 2030 00:00:00 GMT" },
       results := [{ columns := ["echo"],
                     data := [{ row := [statementsEnvelope [Statement.new "RETURN 1"]] }] }],
       errors := [] }
     { raw := "Tue, 01 Jan 2030 00:00:00 GMT" }
     { columns := ["echo"],
       data := [{ row := [statementsEnvelope [Statement.new "RETURN 1"]] }] }
     rfl rfl rfl rfl rfl⟩

/-- Counterexample to C4 as stated: `reset_timeout` succeeds against a
server whose response body carries the fresh expiry
`Wed, 02 Feb 2033 00:00:00 GMT`, yet the returned transaction is the input
unchanged, its `expires` field still the old value — the expiry from the
server response is not applied (the response is discarded). -/
theorem claim_C4_counterexample :
    tIdle.reset_timeout (constServer none bodyFreshExpiry) = .ok tIdle
    ∧ (decodeTransactionResult bodyFreshExpiry).map (fun r => r.transaction.expires)
        = .ok "Wed, 02 Feb 2033 00:00:00 GMT"
    ∧ tIdle.expires = { raw := "Mon, 01 Jan 2024 00:00:00 GMT" }
    ∧ tIdle.expires ≠ { raw := "Wed, 02 Feb 2033 00:00:00 GMT" } := by
  refine ⟨rfl, rfl, rfl, ?_⟩
  intro h
  simp [tIdle] at h

/-- Claim C4 as amended: a successful `reset_timeout()` sends a request
with zero statements to the transaction resource URI and leaves every
field of the transaction unchanged — pending statements, resource URI,
commit URI, and also `expires_at`, since the server response is discarded
without being read. -/
theorem claim_C4 :
    (∀ (server : ServerFn) (t t' : TransactionStarted),
      t.reset_timeout server = .ok t' → t' = t)
    ∧ (∀ (server1 server2 : ServerFn) (t : TransactionStarted),
      server1 t.transaction (statementsEnvelope [])
          = server2 t.transaction (statementsEnvelope []) →
      t.reset_timeout server1 = t.reset_timeout server2) := by
  constructor
  · intro server t t' h
    unfold TransactionStarted.reset_timeout send_query at h
    cases hs : server t.transaction (statementsEnvelope []) with
    | error e => rw [hs] at h; simp at h
    | ok r => rw [hs] at h; simp at h; exact h.symm
  · intro server1 server2 t h
    unfold TransactionStarted.reset_timeout send_query
    rw [h]

/-- Witness for the amended C4: a concrete successful `reset_timeout`
returns the transaction unchanged, and its outcome depends only on the
server's answer to the zero-statement request at the resource URI. -/
theorem claim_C4_witness :
    tIdle = tIdle
    ∧ tIdle.reset_timeout (constServer none bodyFreshExpiry)
        = tIdle.reset_timeout
            (fun ep _ => if ep = "somewhere-else"
              then .error (GraphError.transport "connection refused")
              else .ok { location := none, body := .ok bodyFreshExpiry }) :=
  ⟨claim_C4.1 (constServer none bodyFreshExpiry) tIdle tIdle rfl,
   claim_C4.2 (constServer none bodyFreshExpiry)
     (fun ep _ => if ep = "somewhere-else"
       then .error (GraphError.transport "connection refused")
       else .ok { location := none, body := .ok bodyFreshExpiry })
     tIdle rfl⟩

end RustedCypher
